import Mathlib

/-!
Verification of the libsignal bridge boundary layer: the FFI error
classifier (`rust/bridge/ffi/src/util.rs`) and the JNI conversion
framework (`rust/bridge/shared/src/jni/convert.rs`), shallowly embedded
in Lean.  Machine integers are modelled as `Nat`/`Int`; fallible
conversions return `Except`; each classifier match arm is transcribed in
source order.
-/

namespace Libsignal

/-- The flat error-code enumeration `SignalErrorCode` from
`rust/bridge/ffi/src/util.rs`; numeric discriminants are given by
`SignalErrorCode.toNat` below. -/
inductive SignalErrorCode where
  | UnknownError
  | InvalidState
  | InternalError
  | NullParameter
  | InvalidArgument
  | InvalidType
  | InvalidUtf8String
  | Cancelled
  | ProtobufError
  | LegacyCiphertextVersion
  | UnknownCiphertextVersion
  | UnrecognizedMessageVersion
  | InvalidMessage
  | SealedSenderSelfSend
  | InvalidKey
  | InvalidSignature
  | InvalidAttestationData
  | FingerprintVersionMismatch
  | FingerprintParsingError
  | UntrustedIdentity
  | InvalidKeyIdentifier
  | SessionNotFound
  | InvalidRegistrationId
  | InvalidSession
  | InvalidSenderKeySession
  | DuplicatedMessage
  | CallbackError
  | VerificationFailure
  | UsernameCannotBeEmpty
  | UsernameCannotStartWithDigit
  | UsernameMissingSeparator
  | UsernameBadDiscriminatorCharacter
  | UsernameBadNicknameCharacter
  | UsernameTooShort
  | UsernameTooLong
  | UsernameLinkInvalidEntropyDataLength
  | UsernameLinkInvalid
  | UsernameDiscriminatorCannotBeEmpty
  | UsernameDiscriminatorCannotBeZero
  | UsernameDiscriminatorCannotBeSingleDigit
  | UsernameDiscriminatorCannotHaveLeadingZeros
  | UsernameDiscriminatorTooLarge
  | IoError
  | InvalidMediaInput
  | UnsupportedMediaInput
  | ConnectionTimedOut
  | NetworkProtocol
  | RateLimited
  | WebSocket
  | CdsiInvalidToken
  | ConnectionFailed
  | ChatServiceInactive
  | SvrDataMissing
  | SvrRestoreFailed
  | AppExpired
  | DeviceDeregistered
deriving DecidableEq, Repr

/-- The numeric value assigned to each code by the `repr(C)` enum in
`rust/bridge/ffi/src/util.rs`. -/
def SignalErrorCode.toNat : SignalErrorCode → Nat
  | .UnknownError => 1
  | .InvalidState => 2
  | .InternalError => 3
  | .NullParameter => 4
  | .InvalidArgument => 5
  | .InvalidType => 6
  | .InvalidUtf8String => 7
  | .Cancelled => 8
  | .ProtobufError => 10
  | .LegacyCiphertextVersion => 21
  | .UnknownCiphertextVersion => 22
  | .UnrecognizedMessageVersion => 23
  | .InvalidMessage => 30
  | .SealedSenderSelfSend => 31
  | .InvalidKey => 40
  | .InvalidSignature => 41
  | .InvalidAttestationData => 42
  | .FingerprintVersionMismatch => 51
  | .FingerprintParsingError => 52
  | .UntrustedIdentity => 60
  | .InvalidKeyIdentifier => 70
  | .SessionNotFound => 80
  | .InvalidRegistrationId => 81
  | .InvalidSession => 82
  | .InvalidSenderKeySession => 83
  | .DuplicatedMessage => 90
  | .CallbackError => 100
  | .VerificationFailure => 110
  | .UsernameCannotBeEmpty => 120
  | .UsernameCannotStartWithDigit => 121
  | .UsernameMissingSeparator => 122
  | .UsernameBadDiscriminatorCharacter => 123
  | .UsernameBadNicknameCharacter => 124
  | .UsernameTooShort => 125
  | .UsernameTooLong => 126
  | .UsernameLinkInvalidEntropyDataLength => 127
  | .UsernameLinkInvalid => 128
  | .UsernameDiscriminatorCannotBeEmpty => 140
  | .UsernameDiscriminatorCannotBeZero => 141
  | .UsernameDiscriminatorCannotBeSingleDigit => 142
  | .UsernameDiscriminatorCannotHaveLeadingZeros => 143
  | .UsernameDiscriminatorTooLarge => 144
  | .IoError => 130
  | .InvalidMediaInput => 131
  | .UnsupportedMediaInput => 132
  | .ConnectionTimedOut => 133
  | .NetworkProtocol => 134
  | .RateLimited => 135
  | .WebSocket => 136
  | .CdsiInvalidToken => 137
  | .ConnectionFailed => 138
  | .ChatServiceInactive => 139
  | .SvrDataMissing => 150
  | .SvrRestoreFailed => 151
  | .AppExpired => 160
  | .DeviceDeregistered => 161

/-- The protocol-engine error union `SignalProtocolError`.  The
classifier match in `util.rs` has no catch-all over this union, so the
variants named there are exactly its variants; payloads (addresses,
lengths, identifiers, messages) are modelled as `String`/`Nat` and are
never inspected by classification. -/
inductive SignalProtocolError where
  | FfiBindingError (message : String)
  | InvalidProtobufEncoding
  | DuplicatedMessage (counter : Nat) (index : Nat)
  | InvalidPreKeyId
  | InvalidSignedPreKeyId
  | InvalidKyberPreKeyId
  | SealedSenderSelfSend
  | SignatureValidationFailed
  | NoKeyTypeIdentifier
  | BadKeyType (raw : Nat)
  | BadKeyLength (keyType : Nat) (length : Nat)
  | BadKEMKeyType (raw : Nat)
  | WrongKEMKeyType (expected : Nat) (actual : Nat)
  | BadKEMKeyLength (keyType : Nat) (length : Nat)
  | InvalidMacKeyLength (length : Nat)
  | SessionNotFound (address : String)
  | NoSenderKeyState (distributionId : String)
  | InvalidRegistrationId (address : String) (id : Nat)
  | FingerprintParsingError
  | FingerprintVersionMismatch (theirVersion : Nat) (ourVersion : Nat)
  | UnrecognizedMessageVersion (version : Nat)
  | UnknownSealedSenderVersion (version : Nat)
  | UnrecognizedCiphertextVersion (version : Nat)
  | InvalidMessage (messageType : Nat) (message : String)
  | CiphertextMessageTooShort (length : Nat)
  | InvalidSealedSenderMessage (message : String)
  | BadKEMCiphertextLength (keyType : Nat) (length : Nat)
  | LegacyCiphertextVersion (version : Nat)
  | UntrustedIdentity (address : String)
  | InvalidState (name : String) (message : String)
  | InvalidSessionStructure (message : String)
  | InvalidSenderKeySession (distributionId : String)
  | InvalidArgument (message : String)
  | ApplicationCallbackError (name : String) (cause : String)
deriving DecidableEq, Repr

/-- The device-transfer collaborator error union. -/
inductive DeviceTransferError where
  | InternalError (message : String)
  | KeyDecodingFailed
deriving DecidableEq, Repr

/-- The SGX attestation/enclave collaborator error union (`attest::enclave::Error`). -/
inductive EnclaveError where
  | AttestationDataError (reason : String)
  | AttestationError (message : String)
  | NoiseError (message : String)
  | NoiseHandshakeError (message : String)
  | InvalidBridgeStateError
deriving DecidableEq, Repr

/-- The HSM-enclave collaborator error union (`attest::hsm_enclave::Error`). -/
inductive HsmEnclaveError where
  | InvalidPublicKeyError
  | HSMHandshakeError (message : String)
  | HSMCommunicationError (message : String)
  | TrustedCodeError
  | InvalidCodeHashError
  | InvalidBridgeStateError
deriving DecidableEq, Repr

/-- The symmetric/asymmetric crypto-primitive collaborator error union
(`signal_crypto::Error`).  The classifier names `InvalidKeySize` and
`InvalidTag` and finishes the union with a wildcard arm
`SignalFfiError::SignalCrypto(_)`, so it is consumed as an opaque union.
Modelled from the spec: the remaining (and any newly added) variants of
this opaque collaborator union are represented by `otherVariant`,
distinguished by a tag. -/
inductive SignalCryptoError where
  | InvalidKeySize
  | InvalidTag
  | otherVariant (tag : Nat)
deriving DecidableEq, Repr

/-- The PIN collaborator error union (`signal_pin::Error`). -/
inductive PinError where
  | Argon2Error (message : String)
  | DecodingError (message : String)
  | MrenclaveLookupError
deriving DecidableEq, Repr

/-- The username-syntax collaborator error union (`usernames::UsernameError`).
No catch-all in the classifier, so the named variants are exactly its
variants. -/
inductive UsernameError where
  | NicknameCannotBeEmpty
  | NicknameCannotStartWithDigit
  | MissingSeparator
  | BadNicknameCharacter
  | NicknameTooShort
  | NicknameTooLong
  | DiscriminatorCannotBeEmpty
  | DiscriminatorCannotBeZero
  | DiscriminatorCannotBeSingleDigit
  | DiscriminatorCannotHaveLeadingZeros
  | BadDiscriminatorCharacter
  | DiscriminatorTooLarge
deriving DecidableEq, Repr

/-- The username-link collaborator error union
(`usernames::UsernameLinkError`).  The classifier names
`InputDataTooLong` and `InvalidEntropyDataLength` and finishes the union
with the wildcard arm `SignalFfiError::UsernameLinkError(_)`.
Modelled from the spec: the remaining (and any newly added) variants of
this opaque collaborator union are represented by `otherVariant`. -/
inductive UsernameLinkError where
  | InputDataTooLong
  | InvalidEntropyDataLength
  | otherVariant (tag : Nat)
deriving DecidableEq, Repr

/-- The recovery-service collaborator error union
(`libsignal_net::svr3::Error`).  The classifier names `DataMissing` and
`RestoreFailed` and finishes the union with the wildcard arm
`SignalFfiError::Svr(_)`.  Modelled from the spec: the remaining (and
any newly added) variants of this opaque collaborator union are
represented by `otherVariant`. -/
inductive Svr3Error where
  | DataMissing
  | RestoreFailed (triesRemaining : Nat)
  | otherVariant (tag : Nat)
deriving DecidableEq, Repr

/-- The MP4 sanitizer parse-error kinds
(`signal_media::sanitize::mp4::ParseError`), present only with the
`signal-media` feature.  Field payloads are modelled as `String`. -/
inductive Mp4ParseError where
  | InvalidBoxLayout (detail : String)
  | InvalidInput (detail : String)
  | MissingRequiredBox (detail : String)
  | TruncatedBox
  | UnsupportedBoxLayout (detail : String)
  | UnsupportedBox (detail : String)
  | UnsupportedFormat (detail : String)
deriving DecidableEq, Repr

/-- The WebP sanitizer parse-error kinds
(`signal_media::sanitize::webp::ParseError`), present only with the
`signal-media` feature. -/
inductive WebpParseError where
  | InvalidChunkLayout (detail : String)
  | InvalidInput (detail : String)
  | InvalidVp8lPrefixCode (detail : String)
  | MissingRequiredChunk (detail : String)
  | TruncatedChunk
  | UnsupportedChunk (detail : String)
  | UnsupportedVp8lVersion (detail : String)
deriving DecidableEq, Repr

/-- The MP4 sanitize error report: the classifier reads its `kind` field. -/
structure Mp4Error where
  kind : Mp4ParseError
deriving DecidableEq, Repr

/-- The WebP sanitize error report: the classifier reads its `kind` field. -/
structure WebpError where
  kind : WebpParseError
deriving DecidableEq, Repr

/-- The full internal failure union `SignalFfiError` consumed by the
classifier, with the `signal-media` feature compiled in (the two
`Mp4SanitizeParse`/`WebpSanitizeParse` variants are `cfg`-gated in the
source).  The classifier match has no top-level catch-all, so these are
exactly its variants. -/
inductive SignalFfiError where
  | NullPointer
  | UnexpectedPanic (message : String)
  | InternalError (message : String)
  | DeviceTransfer (e : DeviceTransferError)
  | Signal (e : SignalProtocolError)
  | InvalidUtf8String
  | Cancelled
  | Sgx (e : EnclaveError)
  | Pin (e : PinError)
  | SignalCrypto (e : SignalCryptoError)
  | HsmEnclave (e : HsmEnclaveError)
  | InvalidArgument (message : String)
  | ZkGroupVerificationFailure
  | ZkGroupDeserializationFailure (message : String)
  | UsernameError (e : UsernameError)
  | UsernameLinkError (e : UsernameLinkError)
  | UsernameProofError
  | Io (message : String)
  | Mp4SanitizeParse (err : Mp4Error)
  | WebpSanitizeParse (err : WebpError)
  | WebSocket (message : String)
  | ConnectionTimedOut
  | ConnectionFailed
  | ChatServiceInactive
  | AppExpired
  | DeviceDeregistered
  | NetworkProtocol (message : String)
  | CdsiInvalidToken
  | RateLimited (retrySeconds : Nat)
  | Svr (e : Svr3Error)
deriving DecidableEq, Repr

/-- The error classifier: `impl From<&SignalFfiError> for SignalErrorCode`
from `rust/bridge/ffi/src/util.rs`, with each match arm transcribed in
source order (the `signal-media` feature compiled in). -/
def classify : SignalFfiError → SignalErrorCode
  | .NullPointer => .NullParameter
  | .UnexpectedPanic _ | .InternalError _
  | .DeviceTransfer (.InternalError _)
  | .Signal (.FfiBindingError _) => .InternalError
  | .InvalidUtf8String => .InvalidUtf8String
  | .Cancelled => .Cancelled
  | .Signal .InvalidProtobufEncoding => .ProtobufError
  | .Signal (.DuplicatedMessage _ _) => .DuplicatedMessage
  | .Signal .InvalidPreKeyId | .Signal .InvalidSignedPreKeyId
  | .Signal .InvalidKyberPreKeyId => .InvalidKeyIdentifier
  | .Signal .SealedSenderSelfSend => .SealedSenderSelfSend
  | .Signal .SignatureValidationFailed => .InvalidSignature
  | .Signal .NoKeyTypeIdentifier | .Signal (.BadKeyType _)
  | .Signal (.BadKeyLength _ _) | .Signal (.BadKEMKeyType _)
  | .Signal (.WrongKEMKeyType _ _) | .Signal (.BadKEMKeyLength _ _)
  | .Signal (.InvalidMacKeyLength _)
  | .DeviceTransfer .KeyDecodingFailed
  | .HsmEnclave .InvalidPublicKeyError
  | .SignalCrypto .InvalidKeySize => .InvalidKey
  | .Sgx (.AttestationDataError _) => .InvalidAttestationData
  | .Pin (.Argon2Error _) | .Pin (.DecodingError _)
  | .Pin .MrenclaveLookupError => .InvalidArgument
  | .Signal (.SessionNotFound _)
  | .Signal (.NoSenderKeyState _) => .SessionNotFound
  | .Signal (.InvalidRegistrationId _ _) => .InvalidRegistrationId
  | .Signal .FingerprintParsingError => .FingerprintParsingError
  | .Signal (.FingerprintVersionMismatch _ _) => .FingerprintVersionMismatch
  | .Signal (.UnrecognizedMessageVersion _)
  | .Signal (.UnknownSealedSenderVersion _) => .UnrecognizedMessageVersion
  | .Signal (.UnrecognizedCiphertextVersion _) => .UnknownCiphertextVersion
  | .Signal (.InvalidMessage _ _) | .Signal (.CiphertextMessageTooShort _)
  | .Signal (.InvalidSealedSenderMessage _)
  | .Signal (.BadKEMCiphertextLength _ _)
  | .SignalCrypto .InvalidTag
  | .Sgx (.AttestationError _) | .Sgx (.NoiseError _)
  | .Sgx (.NoiseHandshakeError _)
  | .HsmEnclave (.HSMHandshakeError _)
  | .HsmEnclave (.HSMCommunicationError _) => .InvalidMessage
  | .Signal (.LegacyCiphertextVersion _) => .LegacyCiphertextVersion
  | .Signal (.UntrustedIdentity _)
  | .HsmEnclave .TrustedCodeError => .UntrustedIdentity
  | .Signal (.InvalidState _ _) | .Sgx .InvalidBridgeStateError
  | .HsmEnclave .InvalidBridgeStateError => .InvalidState
  | .Signal (.InvalidSessionStructure _) => .InvalidSession
  | .Signal (.InvalidSenderKeySession _) => .InvalidSenderKeySession
  | .InvalidArgument _ | .Signal (.InvalidArgument _)
  | .HsmEnclave .InvalidCodeHashError
  | .SignalCrypto _ => .InvalidArgument
  | .Signal (.ApplicationCallbackError _ _) => .CallbackError
  | .ZkGroupVerificationFailure => .VerificationFailure
  | .ZkGroupDeserializationFailure _ => .InvalidType
  | .UsernameError .NicknameCannotBeEmpty => .UsernameCannotBeEmpty
  | .UsernameError .NicknameCannotStartWithDigit => .UsernameCannotStartWithDigit
  | .UsernameError .MissingSeparator => .UsernameMissingSeparator
  | .UsernameError .BadNicknameCharacter => .UsernameBadNicknameCharacter
  | .UsernameError .NicknameTooShort => .UsernameTooShort
  | .UsernameError .NicknameTooLong
  | .UsernameLinkError .InputDataTooLong => .UsernameTooLong
  | .UsernameError .DiscriminatorCannotBeEmpty => .UsernameDiscriminatorCannotBeEmpty
  | .UsernameError .DiscriminatorCannotBeZero => .UsernameDiscriminatorCannotBeZero
  | .UsernameError .DiscriminatorCannotBeSingleDigit => .UsernameDiscriminatorCannotBeSingleDigit
  | .UsernameError .DiscriminatorCannotHaveLeadingZeros => .UsernameDiscriminatorCannotHaveLeadingZeros
  | .UsernameError .BadDiscriminatorCharacter => .UsernameBadDiscriminatorCharacter
  | .UsernameError .DiscriminatorTooLarge => .UsernameDiscriminatorTooLarge
  | .UsernameProofError => .VerificationFailure
  | .UsernameLinkError .InvalidEntropyDataLength => .UsernameLinkInvalidEntropyDataLength
  | .UsernameLinkError _ => .UsernameLinkInvalid
  | .Io _ => .IoError
  | .Mp4SanitizeParse err =>
      match err.kind with
      | .InvalidBoxLayout _ | .InvalidInput _
      | .MissingRequiredBox _ | .TruncatedBox => .InvalidMediaInput
      | .UnsupportedBoxLayout _ | .UnsupportedBox _
      | .UnsupportedFormat _ => .UnsupportedMediaInput
  | .WebpSanitizeParse err =>
      match err.kind with
      | .InvalidChunkLayout _ | .InvalidInput _
      | .InvalidVp8lPrefixCode _ | .MissingRequiredChunk _
      | .TruncatedChunk => .InvalidMediaInput
      | .UnsupportedChunk _
      | .UnsupportedVp8lVersion _ => .UnsupportedMediaInput
  | .WebSocket _ => .WebSocket
  | .ConnectionTimedOut => .ConnectionTimedOut
  | .ConnectionFailed => .ConnectionFailed
  | .ChatServiceInactive => .ChatServiceInactive
  | .AppExpired => .AppExpired
  | .DeviceDeregistered => .DeviceDeregistered
  | .NetworkProtocol _ => .NetworkProtocol
  | .CdsiInvalidToken => .CdsiInvalidToken
  | .RateLimited _ => .RateLimited
  | .Svr .DataMissing => .SvrDataMissing
  | .Svr (.RestoreFailed _) => .SvrRestoreFailed
  | .Svr _ => .UnknownError

/-- The internal failure union as compiled WITHOUT the `signal-media`
feature: identical to `SignalFfiError` except that the two
`cfg(feature = "signal-media")`-gated variants are absent. -/
inductive SignalFfiErrorNoMedia where
  | NullPointer
  | UnexpectedPanic (message : String)
  | InternalError (message : String)
  | DeviceTransfer (e : DeviceTransferError)
  | Signal (e : SignalProtocolError)
  | InvalidUtf8String
  | Cancelled
  | Sgx (e : EnclaveError)
  | Pin (e : PinError)
  | SignalCrypto (e : SignalCryptoError)
  | HsmEnclave (e : HsmEnclaveError)
  | InvalidArgument (message : String)
  | ZkGroupVerificationFailure
  | ZkGroupDeserializationFailure (message : String)
  | UsernameError (e : UsernameError)
  | UsernameLinkError (e : UsernameLinkError)
  | UsernameProofError
  | Io (message : String)
  | WebSocket (message : String)
  | ConnectionTimedOut
  | ConnectionFailed
  | ChatServiceInactive
  | AppExpired
  | DeviceDeregistered
  | NetworkProtocol (message : String)
  | CdsiInvalidToken
  | RateLimited (retrySeconds : Nat)
  | Svr (e : Svr3Error)
deriving DecidableEq, Repr

/-- The classifier as compiled WITHOUT the `signal-media` feature: the same
match with the two `cfg`-gated sanitizer arms removed.  It stays
exhaustive over the reduced union. -/
def classifyNoMedia : SignalFfiErrorNoMedia → SignalErrorCode
  | .NullPointer => .NullParameter
  | .UnexpectedPanic _ | .InternalError _
  | .DeviceTransfer (.InternalError _)
  | .Signal (.FfiBindingError _) => .InternalError
  | .InvalidUtf8String => .InvalidUtf8String
  | .Cancelled => .Cancelled
  | .Signal .InvalidProtobufEncoding => .ProtobufError
  | .Signal (.DuplicatedMessage _ _) => .DuplicatedMessage
  | .Signal .InvalidPreKeyId | .Signal .InvalidSignedPreKeyId
  | .Signal .InvalidKyberPreKeyId => .InvalidKeyIdentifier
  | .Signal .SealedSenderSelfSend => .SealedSenderSelfSend
  | .Signal .SignatureValidationFailed => .InvalidSignature
  | .Signal .NoKeyTypeIdentifier | .Signal (.BadKeyType _)
  | .Signal (.BadKeyLength _ _) | .Signal (.BadKEMKeyType _)
  | .Signal (.WrongKEMKeyType _ _) | .Signal (.BadKEMKeyLength _ _)
  | .Signal (.InvalidMacKeyLength _)
  | .DeviceTransfer .KeyDecodingFailed
  | .HsmEnclave .InvalidPublicKeyError
  | .SignalCrypto .InvalidKeySize => .InvalidKey
  | .Sgx (.AttestationDataError _) => .InvalidAttestationData
  | .Pin (.Argon2Error _) | .Pin (.DecodingError _)
  | .Pin .MrenclaveLookupError => .InvalidArgument
  | .Signal (.SessionNotFound _)
  | .Signal (.NoSenderKeyState _) => .SessionNotFound
  | .Signal (.InvalidRegistrationId _ _) => .InvalidRegistrationId
  | .Signal .FingerprintParsingError => .FingerprintParsingError
  | .Signal (.FingerprintVersionMismatch _ _) => .FingerprintVersionMismatch
  | .Signal (.UnrecognizedMessageVersion _)
  | .Signal (.UnknownSealedSenderVersion _) => .UnrecognizedMessageVersion
  | .Signal (.UnrecognizedCiphertextVersion _) => .UnknownCiphertextVersion
  | .Signal (.InvalidMessage _ _) | .Signal (.CiphertextMessageTooShort _)
  | .Signal (.InvalidSealedSenderMessage _)
  | .Signal (.BadKEMCiphertextLength _ _)
  | .SignalCrypto .InvalidTag
  | .Sgx (.AttestationError _) | .Sgx (.NoiseError _)
  | .Sgx (.NoiseHandshakeError _)
  | .HsmEnclave (.HSMHandshakeError _)
  | .HsmEnclave (.HSMCommunicationError _) => .InvalidMessage
  | .Signal (.LegacyCiphertextVersion _) => .LegacyCiphertextVersion
  | .Signal (.UntrustedIdentity _)
  | .HsmEnclave .TrustedCodeError => .UntrustedIdentity
  | .Signal (.InvalidState _ _) | .Sgx .InvalidBridgeStateError
  | .HsmEnclave .InvalidBridgeStateError => .InvalidState
  | .Signal (.InvalidSessionStructure _) => .InvalidSession
  | .Signal (.InvalidSenderKeySession _) => .InvalidSenderKeySession
  | .InvalidArgument _ | .Signal (.InvalidArgument _)
  | .HsmEnclave .InvalidCodeHashError
  | .SignalCrypto _ => .InvalidArgument
  | .Signal (.ApplicationCallbackError _ _) => .CallbackError
  | .ZkGroupVerificationFailure => .VerificationFailure
  | .ZkGroupDeserializationFailure _ => .InvalidType
  | .UsernameError .NicknameCannotBeEmpty => .UsernameCannotBeEmpty
  | .UsernameError .NicknameCannotStartWithDigit => .UsernameCannotStartWithDigit
  | .UsernameError .MissingSeparator => .UsernameMissingSeparator
  | .UsernameError .BadNicknameCharacter => .UsernameBadNicknameCharacter
  | .UsernameError .NicknameTooShort => .UsernameTooShort
  | .UsernameError .NicknameTooLong
  | .UsernameLinkError .InputDataTooLong => .UsernameTooLong
  | .UsernameError .DiscriminatorCannotBeEmpty => .UsernameDiscriminatorCannotBeEmpty
  | .UsernameError .DiscriminatorCannotBeZero => .UsernameDiscriminatorCannotBeZero
  | .UsernameError .DiscriminatorCannotBeSingleDigit => .UsernameDiscriminatorCannotBeSingleDigit
  | .UsernameError .DiscriminatorCannotHaveLeadingZeros => .UsernameDiscriminatorCannotHaveLeadingZeros
  | .UsernameError .BadDiscriminatorCharacter => .UsernameBadDiscriminatorCharacter
  | .UsernameError .DiscriminatorTooLarge => .UsernameDiscriminatorTooLarge
  | .UsernameProofError => .VerificationFailure
  | .UsernameLinkError .InvalidEntropyDataLength => .UsernameLinkInvalidEntropyDataLength
  | .UsernameLinkError _ => .UsernameLinkInvalid
  | .Io _ => .IoError
  | .WebSocket _ => .WebSocket
  | .ConnectionTimedOut => .ConnectionTimedOut
  | .ConnectionFailed => .ConnectionFailed
  | .ChatServiceInactive => .ChatServiceInactive
  | .AppExpired => .AppExpired
  | .DeviceDeregistered => .DeviceDeregistered
  | .NetworkProtocol _ => .NetworkProtocol
  | .CdsiInvalidToken => .CdsiInvalidToken
  | .RateLimited _ => .RateLimited
  | .Svr .DataMissing => .SvrDataMissing
  | .Svr (.RestoreFailed _) => .SvrRestoreFailed
  | .Svr _ => .UnknownError

/-- Spec-side predicate for the MP4 family (refinement comparison only):
follows the spec wording that a parse failure is either a
recognized-but-unsupported construct or malformed input. -/
def mp4UnsupportedCauseSpec : Mp4ParseError → Bool
  | .UnsupportedBoxLayout _ | .UnsupportedBox _ | .UnsupportedFormat _ => true
  | _ => false

/-- Spec-side predicate for the WebP family (refinement comparison only):
recognized-but-unsupported constructs versus malformed input. -/
def webpUnsupportedCauseSpec : WebpParseError → Bool
  | .UnsupportedChunk _ | .UnsupportedVp8lVersion _ => true
  | _ => false

/-- The JNI-side error union `SignalJniError`, as used by the conversion
framework in `rust/bridge/shared/src/jni/convert.rs`.  Its own
declaration is outside the shown sources; the two constructors used
there are the `From`-wrapping of a protocol error performed by the `?`
operator, and the integer-range failure raised by `jint_to_u32`.
Modelled from the spec: the union may carry further JNI-specific
variants, represented opaquely by `otherVariant`. -/
inductive SignalJniError where
  | Signal (e : SignalProtocolError)
  | IntegerOverflow (message : String)
  | otherVariant (tag : Nat)
deriving DecidableEq, Repr

/-- `impl ResultTypeInfo for Result<T, SignalProtocolError>` from
`convert.rs`: `T::convert_into(self?, env)`.  The `?` operator
early-returns `Err` after wrapping the protocol error into
`SignalJniError`; otherwise the inner value's own `convert_into` runs.
The ambient `JNIEnv` plays no role in the dispatch and is omitted;
`convT` is the inner type's `convert_into`. -/
def resultTypeInfoConvertInto {T H : Type} (convT : T → Except SignalJniError H) :
    Except SignalProtocolError T → Except SignalJniError H
  | .ok v => convT v
  | .error e => .error (.Signal e)

/-- `env.convert_byte_array` as seen by `RefArgTypeInfo for &[u8]`.
Modelled from the spec: the JNI environment call (outside the shown
sources) copies the host byte sequence into a native-owned buffer of
identical length and content. -/
def convert_byte_array (foreign : List Nat) : Except SignalJniError (List Nat) :=
  .ok foreign

/-- `impl RefArgTypeInfo for &[u8]` from `convert.rs`:
`Ok(env.convert_byte_array(foreign)?)`, producing the owned `Vec<u8>`
stored for the duration of the call. -/
def byteSliceConvertFrom (foreign : List Nat) : Except SignalJniError (List Nat) :=
  convert_byte_array foreign

/-- `jint_to_u32` as called by `impl ArgTypeInfo for u32` in `convert.rs`.
Modelled from the spec: the helper (outside the shown sources) performs
checked narrowing — a negative `jint` fails with an argument-range
(integer overflow) error, a non-negative one converts to the numerically
equal `u32`, never truncating or wrapping. -/
def jint_to_u32 (v : Int) : Except SignalJniError Nat :=
  if v < 0 then .error (.IntegerOverflow (toString v ++ " to u32"))
  else .ok v.toNat

/-- `impl ArgTypeInfo for u32` from `convert.rs`: delegates to `jint_to_u32`. -/
def u32ConvertFrom (foreign : Int) : Except SignalJniError Nat :=
  jint_to_u32 foreign

/-- Checks one byte against a UTF-8 decoder state `(need, lo, hi)`:
`need` continuation bytes still expected, the next one constrained to
`[lo, hi]`.  A lead byte installs the standard UTF-8 ranges (overlongs
and surrogates excluded); an out-of-place byte rejects. -/
def utf8Step : Nat × Nat × Nat → Nat → Option (Nat × Nat × Nat)
  | (0, _, _), b =>
    if b ≤ 0x7F then some (0, 0x80, 0xBF)
    else if 0xC2 ≤ b ∧ b ≤ 0xDF then some (1, 0x80, 0xBF)
    else if b = 0xE0 then some (2, 0xA0, 0xBF)
    else if 0xE1 ≤ b ∧ b ≤ 0xEC then some (2, 0x80, 0xBF)
    else if b = 0xED then some (2, 0x80, 0x9F)
    else if 0xEE ≤ b ∧ b ≤ 0xEF then some (2, 0x80, 0xBF)
    else if b = 0xF0 then some (3, 0x90, 0xBF)
    else if 0xF1 ≤ b ∧ b ≤ 0xF3 then some (3, 0x80, 0xBF)
    else if b = 0xF4 then some (3, 0x80, 0x8F)
    else none
  | (need + 1, lo, hi), b =>
    if lo ≤ b ∧ b ≤ hi then some (need, 0x80, 0xBF) else none

/-- UTF-8 well-formedness of a byte sequence: the standard validation
automaton accepts and ends with no continuation bytes pending. -/
def utf8WellFormed (bs : List Nat) : Bool :=
  match bs.foldl (fun st b => st.bind (fun s => utf8Step s b)) (some (0, 0x80, 0xBF)) with
  | some (0, _, _) => true
  | _ => false

/-- The FFI-side host-to-native string argument conversion.  Modelled
from the spec: the FFI `ArgTypeInfo` for `String` (outside the shown
sources) validates the incoming bytes as UTF-8 and fails with the
dedicated `SignalFfiError::InvalidUtf8String` on malformed input,
producing no partial value; on success the validated bytes are the
native string. -/
def stringConvertFrom (bytes : List Nat) : Except SignalFfiError (List Nat) :=
  if utf8WellFormed bytes then .ok bytes else .error .InvalidUtf8String

/-- `native_handle_cast` as used by the `native_handle!` pattern in
`convert.rs`.  Modelled from the spec: casting reconstructs a typed
reference from an opaque token (outside the shown sources, the token is
a raw pointer checked against null); a null token fails with
`SignalFfiError::NullPointer` rather than faulting, a live token yields
the referenced value. -/
def native_handle_cast {α : Type} : Option α → Except SignalFfiError α
  | none => .error .NullPointer
  | some v => .ok v

/-- Every assigned error-code value is positive. -/
theorem errorCode_toNat_pos : ∀ c : SignalErrorCode, 0 < c.toNat := by
  intro c
  cases c <;> decide

/-- C1: the error classifier is a total, deterministic function — for every
constructible internal error value (across every collaborating subsystem
union, the optional media-sanitizer family included), classification
returns a valid `SignalErrorCode` whose numeric value is non-zero, and
classifying two equal inputs yields the same code. -/
theorem classify_total_nonzero_deterministic :
    ∀ e : SignalFfiError, 0 < (classify e).toNat ∧
      ∀ e2 : SignalFfiError, e = e2 → classify e = classify e2 :=
  fun e => ⟨errorCode_toNat_pos (classify e), fun _ h => congrArg classify h⟩

theorem classify_total_nonzero_deterministic_witness :
    0 < (classify SignalFfiError.NullPointer).toNat ∧
      classify SignalFfiError.NullPointer = classify SignalFfiError.NullPointer :=
  ⟨(classify_total_nonzero_deterministic SignalFfiError.NullPointer).1,
   (classify_total_nonzero_deterministic SignalFfiError.NullPointer).2
     SignalFfiError.NullPointer rfl⟩

/-- C2 counterexample: the classifier does resolve variants through silent
catch-all arms.  The signal-crypto, username-link and SVR3 collaborator
unions are finished by the wildcard arms `SignalFfiError::SignalCrypto(_)`,
`SignalFfiError::UsernameLinkError(_)` and `SignalFfiError::Svr(_)`: a
variant of those unions that no rule names (modelled by `otherVariant`,
standing also for any newly added variant, which would compile without any
build or coverage failure) is classified to a default code. -/
theorem classify_catch_all_counterexample :
    classify (SignalFfiError.SignalCrypto (SignalCryptoError.otherVariant 0)) =
      SignalErrorCode.InvalidArgument ∧
    classify (SignalFfiError.UsernameLinkError (UsernameLinkError.otherVariant 0)) =
      SignalErrorCode.UsernameLinkInvalid ∧
    classify (SignalFfiError.Svr (Svr3Error.otherVariant 0)) =
      SignalErrorCode.UnknownError :=
  ⟨rfl, rfl, rfl⟩

/-- C2 amended: every collaborator error variant is covered by some
classification rule, but not always one naming it — the signal-crypto,
username-link and SVR3 unions end in wildcard catch-all arms, so any of
their variants not explicitly named (including a newly added one)
silently resolves to `InvalidArgument`, `UsernameLinkInvalid` or
`UnknownError` respectively. -/
theorem classify_catch_all_amended :
    ∀ t : Nat,
      classify (SignalFfiError.SignalCrypto (SignalCryptoError.otherVariant t)) =
        SignalErrorCode.InvalidArgument ∧
      classify (SignalFfiError.UsernameLinkError (UsernameLinkError.otherVariant t)) =
        SignalErrorCode.UsernameLinkInvalid ∧
      classify (SignalFfiError.Svr (Svr3Error.otherVariant t)) =
        SignalErrorCode.UnknownError :=
  fun _ => ⟨rfl, rfl, rfl⟩

theorem classify_catch_all_amended_witness :
    classify (SignalFfiError.SignalCrypto (SignalCryptoError.otherVariant 5)) =
      SignalErrorCode.InvalidArgument ∧
    classify (SignalFfiError.UsernameLinkError (UsernameLinkError.otherVariant 5)) =
      SignalErrorCode.UsernameLinkInvalid ∧
    classify (SignalFfiError.Svr (Svr3Error.otherVariant 5)) =
      SignalErrorCode.UnknownError :=
  classify_catch_all_amended 5

/-- C3: result conversion over a native `Result` composes so every call
ends in exactly one outcome — an `Ok` native result delegates to the
value's own conversion, an `Err` is piped to the error path wrapping the
protocol error, and the host-visible outcome is either a value or a
single error, never both and never neither. -/
theorem result_conversion_exactly_one_outcome :
    ∀ {T H : Type} (convT : T → Except SignalJniError H)
      (r : Except SignalProtocolError T),
      (∀ v, resultTypeInfoConvertInto convT (Except.ok v) = convT v) ∧
      (∀ e, resultTypeInfoConvertInto convT (Except.error e) =
        Except.error (SignalJniError.Signal e)) ∧
      ((∃ h, resultTypeInfoConvertInto convT r = Except.ok h) ∨
        (∃ er, resultTypeInfoConvertInto convT r = Except.error er)) ∧
      ¬ ((∃ h, resultTypeInfoConvertInto convT r = Except.ok h) ∧
        (∃ er, resultTypeInfoConvertInto convT r = Except.error er)) := by
  intro T H convT r
  refine ⟨fun v => rfl, fun e => rfl, ?_, ?_⟩
  · cases hr : resultTypeInfoConvertInto convT r with
    | ok v => exact Or.inl ⟨v, rfl⟩
    | error er => exact Or.inr ⟨er, rfl⟩
  · rintro ⟨⟨v, hv⟩, ⟨er, her⟩⟩
    rw [hv] at her
    exact Except.noConfusion her

theorem result_conversion_exactly_one_outcome_witness :
    resultTypeInfoConvertInto (fun n : Nat => (Except.ok n : Except SignalJniError Nat))
        (Except.ok 2) = Except.ok 2 ∧
    resultTypeInfoConvertInto (fun n : Nat => (Except.ok n : Except SignalJniError Nat))
        (Except.error SignalProtocolError.InvalidProtobufEncoding) =
      Except.error (SignalJniError.Signal SignalProtocolError.InvalidProtobufEncoding) ∧
    ¬ ((∃ h, resultTypeInfoConvertInto
          (fun n : Nat => (Except.ok n : Except SignalJniError Nat)) (Except.ok 2) =
            Except.ok h) ∧
      (∃ er, resultTypeInfoConvertInto
          (fun n : Nat => (Except.ok n : Except SignalJniError Nat)) (Except.ok 2) =
            Except.error er)) := by
  have h := result_conversion_exactly_one_outcome
    (fun n : Nat => (Except.ok n : Except SignalJniError Nat)) (Except.ok 2)
  exact ⟨h.1 2, h.2.1 SignalProtocolError.InvalidProtobufEncoding, h.2.2.2⟩

/-- C4: converting a host byte sequence of length N succeeds with a
native-owned buffer of exactly length N containing identical bytes, and
the empty sequence yields an empty buffer, not an error. -/
theorem byte_sequence_round_trip :
    ∀ bs : List Nat,
      (∃ out, byteSliceConvertFrom bs = Except.ok out ∧
        out.length = bs.length ∧ out = bs) ∧
      byteSliceConvertFrom ([] : List Nat) = Except.ok [] :=
  fun bs => ⟨⟨bs, rfl, rfl, rfl⟩, rfl⟩

theorem byte_sequence_round_trip_witness :
    (∃ out, byteSliceConvertFrom [7, 8] = Except.ok out ∧
      out.length = [7, 8].length ∧ out = [7, 8]) ∧
    byteSliceConvertFrom ([] : List Nat) = Except.ok [] :=
  byte_sequence_round_trip [7, 8]

/-- C5: integer argument conversion performs checked narrowing — a host
`jint` value inside the `u32` range converts to the numerically equal
native value, and a value outside that range (a negative `jint`) fails
with the argument-range (integer overflow) error, never silently
truncating or wrapping. -/
theorem u32_argument_checked_range (v : Int)
    (_hlo : -(2 ^ 31) ≤ v) (_hhi : v < 2 ^ 31) :
    (0 ≤ v → u32ConvertFrom v = Except.ok v.toNat ∧ (v.toNat : Int) = v) ∧
    (v < 0 → ∃ s, u32ConvertFrom v = Except.error (SignalJniError.IntegerOverflow s)) := by
  constructor
  · intro h
    have hv : ¬ v < 0 := not_lt.mpr h
    refine ⟨?_, Int.toNat_of_nonneg h⟩
    simp [u32ConvertFrom, jint_to_u32, hv]
  · intro h
    exact ⟨toString v ++ " to u32", by simp [u32ConvertFrom, jint_to_u32, h]⟩

theorem u32_argument_checked_range_witness :
    u32ConvertFrom 5 = Except.ok 5 ∧
    (∃ s, u32ConvertFrom (-1) = Except.error (SignalJniError.IntegerOverflow s)) :=
  ⟨((u32_argument_checked_range 5 (by decide) (by decide)).1 (by decide)).1,
   (u32_argument_checked_range (-1) (by decide) (by decide)).2 (by decide)⟩

/-- C6: string argument conversion validates text encoding host-to-native —
a malformed-encoding input fails with the dedicated encoding error
`InvalidUtf8String`, whose classified numeric code is 7, and produces no
native string value. -/
theorem string_utf8_validation (bs : List Nat)
    (h : utf8WellFormed bs = false) :
    stringConvertFrom bs = Except.error SignalFfiError.InvalidUtf8String ∧
    (classify SignalFfiError.InvalidUtf8String).toNat = 7 := by
  refine ⟨?_, rfl⟩
  simp [stringConvertFrom, h]

theorem string_utf8_validation_witness :
    utf8WellFormed [0xFF] = false ∧
    (stringConvertFrom [0xFF] = Except.error SignalFfiError.InvalidUtf8String ∧
      (classify SignalFfiError.InvalidUtf8String).toNat = 7) :=
  ⟨by decide, string_utf8_validation [0xFF] (by decide)⟩

/-- C7: with the media-sanitizer family compiled in, a media parse failure
is sub-classified by its payload — every malformed/truncated/missing
cause yields code 131 (`InvalidMediaInput`) and every
recognized-but-unsupported cause yields code 132
(`UnsupportedMediaInput`); without the family, the classifier stays
exhaustive over the reduced union and never assigns 131 or 132. -/
theorem media_subclassification_and_reservation :
    (∀ k : Mp4ParseError,
      (classify (SignalFfiError.Mp4SanitizeParse ⟨k⟩)).toNat =
        if mp4UnsupportedCauseSpec k then 132 else 131) ∧
    (∀ k : WebpParseError,
      (classify (SignalFfiError.WebpSanitizeParse ⟨k⟩)).toNat =
        if webpUnsupportedCauseSpec k then 132 else 131) ∧
    (∀ e : SignalFfiErrorNoMedia,
      (classifyNoMedia e).toNat ≠ 131 ∧ (classifyNoMedia e).toNat ≠ 132) := by
  refine ⟨?_, ?_, ?_⟩
  · intro k; cases k <;> rfl
  · intro k; cases k <;> rfl
  · intro e
    cases e <;> try exact ⟨of_decide_eq_true rfl, of_decide_eq_true rfl⟩
    all_goals rename_i p
    all_goals cases p <;> exact ⟨of_decide_eq_true rfl, of_decide_eq_true rfl⟩

theorem media_subclassification_and_reservation_witness :
    (classify (SignalFfiError.Mp4SanitizeParse ⟨Mp4ParseError.TruncatedBox⟩)).toNat =
      (if mp4UnsupportedCauseSpec Mp4ParseError.TruncatedBox then 132 else 131) ∧
    (classify (SignalFfiError.WebpSanitizeParse ⟨WebpParseError.TruncatedChunk⟩)).toNat =
      (if webpUnsupportedCauseSpec WebpParseError.TruncatedChunk then 132 else 131) ∧
    (classifyNoMedia SignalFfiErrorNoMedia.NullPointer).toNat ≠ 131 ∧
    (classifyNoMedia SignalFfiErrorNoMedia.NullPointer).toNat ≠ 132 := by
  have h := media_subclassification_and_reservation
  exact ⟨h.1 Mp4ParseError.TruncatedBox, h.2.1 WebpParseError.TruncatedChunk,
    (h.2.2 SignalFfiErrorNoMedia.NullPointer).1,
    (h.2.2 SignalFfiErrorNoMedia.NullPointer).2⟩

/-- C8: a "session not found for address" cause classifies to numeric
code 80 for every address payload. -/
theorem session_not_found_yields_80 (address : String) :
    (classify (SignalFfiError.Signal
      (SignalProtocolError.SessionNotFound address))).toNat = 80 :=
  rfl

theorem session_not_found_yields_80_witness :
    (classify (SignalFfiError.Signal
      (SignalProtocolError.SessionNotFound "alice.1"))).toNat = 80 :=
  session_not_found_yields_80 "alice.1"

/-- C9: casting a null handle token fails (returning the null-pointer
internal error rather than faulting), and that error classifies to
numeric code 4 (`NullParameter`). -/
theorem null_handle_cast_yields_4 :
    (∀ α : Type, native_handle_cast (α := α) none =
      Except.error SignalFfiError.NullPointer) ∧
    (classify SignalFfiError.NullPointer).toNat = 4 :=
  ⟨fun _ => rfl, rfl⟩

theorem null_handle_cast_yields_4_witness :
    native_handle_cast (α := Nat) none = Except.error SignalFfiError.NullPointer ∧
    (classify SignalFfiError.NullPointer).toNat = 4 :=
  ⟨null_handle_cast_yields_4.1 Nat, null_handle_cast_yields_4.2⟩

/-- C10: a username-link "input data too long" failure classifies to the
same code as the username-syntax "nickname too long" failure — both
yield `UsernameTooLong`, numeric value 126, which is distinct from the
username-link codes 127 (`UsernameLinkInvalidEntropyDataLength`) and 128
(`UsernameLinkInvalid`). -/
theorem username_link_too_long_shares_username_code :
    classify (SignalFfiError.UsernameError UsernameError.NicknameTooLong) =
      SignalErrorCode.UsernameTooLong ∧
    classify (SignalFfiError.UsernameLinkError UsernameLinkError.InputDataTooLong) =
      SignalErrorCode.UsernameTooLong ∧
    SignalErrorCode.UsernameTooLong.toNat = 126 ∧
    SignalErrorCode.UsernameLinkInvalidEntropyDataLength.toNat = 127 ∧
    SignalErrorCode.UsernameLinkInvalid.toNat = 128 := by
  decide

end Libsignal
